import Mathlib

/-!
Verification of the orchestration driver in `run_examples.py` against its
design specification (spec.md).

The driver prepares an environment (probing a backing service, optionally
starting it via a container engine, optionally installing dependencies),
runs a fixed sequence of example scripts and a test suite under timeouts,
and optionally tears the service down at the end.

We give a shallow embedding: Python functions become Lean functions over an
explicit `World` of environment facts (probe answer, prompt replies,
container-engine state, file existence, child-process behaviour).  Python
exceptions are modelled with `Except PyExn`; a `try/except` block becomes an
explicit handler applied to an `Except` value.
-/

/-- Python exceptions relevant to the driver.  All four constructors model
subclasses of `Exception`, so a bare `except:` or `except Exception:`
catches every one of them. -/
inductive PyExn where
  | timeoutExpired      -- subprocess.TimeoutExpired
  | calledProcessError  -- subprocess.CalledProcessError (check=True, non-zero exit)
  | fileNotFoundError   -- FileNotFoundError (program binary absent)
  | otherError          -- any other Exception during spawning
deriving DecidableEq, Repr

/-- `tryE body handler` models `try: body except ...`: if `body` raises `e`
and `handler e = some a`, the exception is caught and `a` returned;
if `handler e = none`, the exception propagates. -/
def tryE {α : Type} (body : Except PyExn α) (handler : PyExn → Option α) :
    Except PyExn α :=
  match body with
  | .ok a => .ok a
  | .error e =>
    match handler e with
    | some a => .ok a
    | none => .error e

/-- What a child process would do if spawned: either spawning itself raises,
or the process runs for `duration` seconds and exits with a code and output. -/
inductive ProcOutcome where
  | spawnFail (e : PyExn)
  | exits (returncode : Int) (stdout stderr : String)
deriving DecidableEq, Repr

/-- Behaviour of one child process: its wall-clock running time together
with its outcome. -/
structure ProcBehavior where
  duration : Nat
  outcome : ProcOutcome
deriving DecidableEq, Repr

/-- Result object of a completed `subprocess.run` call
(`capture_output=True, text=True`). -/
structure CompletedProc where
  returncode : Int
  stdout : String
  stderr : String
deriving DecidableEq, Repr

/-- `subprocess.run(cmd, capture_output=True, text=True, timeout=limit)`:
raises the spawn failure if the program cannot be started; raises
`TimeoutExpired` if the process is still alive when the wall-clock limit
passes; otherwise returns the completed process. -/
def subprocessRun (limit : Nat) (pb : ProcBehavior) : Except PyExn CompletedProc :=
  match pb.outcome with
  | .spawnFail e => .error e
  | .exits code out err =>
    if limit < pb.duration then .error .timeoutExpired
    else .ok ⟨code, out, err⟩

/-- The per-task status taxonomy of the spec (§3, ExecutionResult.status). -/
inductive Status where
  | completed
  | timedOut
  | failed
  | notFound
deriving DecidableEq, Repr

/-- ExecutionResult of the spec data model (§3): the status of one task,
its exit code when one exists, and the captured output. -/
structure ExecutionResult where
  status : Status
  exitCode : Option Int
  stdout : String
  stderr : String
deriving DecidableEq, Repr

/-- Shared body of `run_example` and `run_tests`: run the script under the
given timeout and classify the outcome exactly as the driver's print
branches do (`returncode == 0` / non-zero / `TimeoutExpired` /
`except Exception`). Total: every modelled exception is classified. -/
def runScript (limit : Nat) (pb : ProcBehavior) : ExecutionResult :=
  match subprocessRun limit pb with
  | .ok r =>
    if r.returncode == 0 then ⟨.completed, some r.returncode, r.stdout, r.stderr⟩
    else ⟨.failed, some r.returncode, r.stdout, r.stderr⟩
  | .error .timeoutExpired => ⟨.timedOut, none, "", ""⟩
  | .error _ => ⟨.failed, none, "", ""⟩

/-- `run_example` (run_examples.py:68-90) with its `try/except` structure
made explicit: the body may raise, the two handlers
(`except subprocess.TimeoutExpired`, `except Exception`) catch. -/
def run_exampleE (pb : ProcBehavior) : Except PyExn ExecutionResult :=
  tryE
    (do
      let r ← subprocessRun 60 pb
      if r.returncode == 0 then
        pure ⟨.completed, some r.returncode, r.stdout, r.stderr⟩
      else
        pure ⟨.failed, some r.returncode, r.stdout, r.stderr⟩)
    (fun e =>
      match e with
      | .timeoutExpired => some ⟨.timedOut, none, "", ""⟩
      | _ => some ⟨.failed, none, "", ""⟩)

/-- `run_example` as the total function it is observed to be (60-second
timeout, run_examples.py:76-77). -/
def run_example (pb : ProcBehavior) : ExecutionResult := runScript 60 pb

/-- `run_tests` (run_examples.py:92-115): same classification under a
120-second timeout. -/
def run_tests (pb : ProcBehavior) : ExecutionResult := runScript 120 pb

/-! ### The container-engine model (ServiceLifecycleManager) -/

/-- One container known to the engine: its name and whether it is live. -/
structure Container where
  name : String
  running : Bool
deriving DecidableEq, Repr

/-- The engine state: the list of containers, running or stopped. -/
abbrev DockerState := List Container

/-- The fixed container name used by the driver (run_examples.py:26,33,50). -/
def qname : String := "qdrant-quickstart"

/-- `docker stop qdrant-quickstart`, effect on the state: every container
with that name stops (stopping a stopped container is a no-op). -/
def dockerStopAll (s : DockerState) : DockerState :=
  s.map (fun c => if c.name == qname then ⟨c.name, false⟩ else c)

/-- `docker rm qdrant-quickstart`, effect on the state: stopped containers
with that name are removed (a running container cannot be removed). -/
def dockerRmStopped (s : DockerState) : DockerState :=
  s.filter (fun c => !(c.name == qname && !c.running))

/-- Is some container with the driver's name present (running or not)? -/
def hasQ (s : DockerState) : Bool := s.any (fun c => c.name == qname)

/-- Number of live containers carrying the driver's name. -/
def liveQ (s : DockerState) : Nat :=
  ((s.filter (fun c => c.name == qname)).filter (fun c => c.running)).length

/-- Number of containers (live or stopped) carrying the driver's name. -/
def namedQ (s : DockerState) : Nat :=
  (s.filter (fun c => c.name == qname)).length

/-- `start_qdrant` (run_examples.py:20-45).  If the engine binary is absent,
every `subprocess.run(["docker", ...])` raises `FileNotFoundError`; the one
under `check=True` reaches the outer `except FileNotFoundError` and the
function returns `False` with the state untouched.  Otherwise the best-effort
`docker stop` / `docker rm` pair runs with `check=False` (exit codes
ignored), then `docker run -d --name qdrant-quickstart ...` with `check=True`
either launches a fresh live container and returns `True`, or raises
`CalledProcessError` (name conflict, or any launch failure, modelled by
`runOk = false`) which the outer handler turns into `False`. -/
def start_qdrant (engineAvailable runOk : Bool) (s : DockerState) :
    DockerState × Bool :=
  if engineAvailable then
    let s2 := dockerRmStopped (dockerStopAll s)
    if hasQ s2 || !runOk then (s2, false)
    else (s2 ++ [⟨qname, true⟩], true)
  else (s, false)

/-- `stop_qdrant` (run_examples.py:47-54) with its `try/except: pass` made
explicit.  `docker stop` under `check=True` raises `CalledProcessError` when
no container with the name exists (and `FileNotFoundError` when the engine
binary is absent); on success `docker rm` removes the now-stopped
containers.  Every error is swallowed by the bare `except`, leaving the
state as it was at the point of the raise. -/
def stop_qdrantE (engineAvailable : Bool) (s : DockerState) :
    Except PyExn DockerState :=
  tryE
    (if !engineAvailable then .error .fileNotFoundError
     else if hasQ s then .ok (dockerRmStopped (dockerStopAll s))
     else .error .calledProcessError)
    (fun _ => some s)

/-- The observed state transition of `stop_qdrant` (errors swallowed). -/
def stop_qdrant (engineAvailable : Bool) (s : DockerState) : DockerState :=
  match stop_qdrantE engineAvailable s with
  | .ok s2 => s2
  | .error _ => s

/-! ### Dependency installation, decisions, and the driver -/

/-- `install_dependencies` (run_examples.py:56-66): runs
`uv pip install -r requirements.txt` with `check=True`.  The `except`
clause catches only `CalledProcessError` (non-zero exit, returns `False`);
if the `uv` binary itself is absent the `FileNotFoundError` propagates
out of the function. -/
def install_dependencies (uvBinaryPresent : Bool) (installExit : Int) :
    Except PyExn Bool :=
  tryE
    (if !uvBinaryPresent then .error .fileNotFoundError
     else if installExit == 0 then .ok true
     else .error .calledProcessError)
    (fun e =>
      match e with
      | .calledProcessError => some false
      | _ => none)

/-- Python's `str.lower()`, character by character (it agrees with
`Char.toLower` on every character the driver compares against). -/
def pyLower (s : String) : String := String.mk (s.data.map Char.toLower)

/-- The yes/no decision applied to both prompt replies
(run_examples.py:126 and 173): `response.lower() == 'y'`. -/
def promptDecision (response : String) : Bool := pyLower response == "y"

/-- The fixed example-task list of the driver (run_examples.py:149-153). -/
def driverExamples : List (String × String) :=
  [("Basic Example", "examples/basic_example.py"),
   ("Document Search", "examples/document_search.py"),
   ("Advanced Features", "examples/advanced_features.py")]

/-- Everything about the environment a driver run depends on. -/
structure World where
  /-- Answer of the availability probe (`check_qdrant_running`, which
  converts every connection error into `false`). -/
  qdrantRunning : Bool
  /-- Reply typed at the "start Qdrant with Docker?" prompt. -/
  startResponse : String
  /-- Whether the `docker` binary exists on PATH. -/
  engineAvailable : Bool
  /-- Whether the `docker run -d ...` launch command exits 0. -/
  dockerRunOk : Bool
  /-- Engine state when the run begins. -/
  docker0 : DockerState
  /-- Whether dependency auto-management is detected
  (`"uv" in sys.executable or "UV_RUNNING_DIR" in os.environ`). -/
  usingUv : Bool
  /-- Whether the `uv` binary exists on PATH (for `install_dependencies`). -/
  uvBinaryPresent : Bool
  /-- Exit code of `uv pip install -r requirements.txt`. -/
  installExit : Int
  /-- `os.path.exists` for the script paths and the tests directory. -/
  fileExists : String → Bool
  /-- Behaviour of the child process for each script path. -/
  procBehavior : String → ProcBehavior
  /-- Behaviour of the pytest child process. -/
  testsBehavior : ProcBehavior
  /-- Reply typed at the "stop the Qdrant container?" prompt. -/
  stopResponse : String

/-- One iteration of the example loop (run_examples.py:155-159): an existing
script is executed by `run_example`, a missing one is reported not found. -/
def runTaskEntry (w : World) (task : String × String) :
    String × ExecutionResult :=
  if w.fileExists task.2 then (task.1, run_example (w.procBehavior task.2))
  else (task.1, ⟨.notFound, none, "", ""⟩)

/-- The example loop itself: each configured task is processed in order and
the loop body never breaks or returns early. -/
def runTasks (w : World) : List (String × String) → List (String × ExecutionResult)
  | [] => []
  | task :: rest => runTaskEntry w task :: runTasks w rest

/-- Observable outcome of one driver invocation. -/
structure DriverRun where
  /-- `some true` when `start_qdrant` was called and reported success (a
  service handle was obtained), `some false` when it was called and failed,
  `none` when it was never called. -/
  startResult : Option Bool
  /-- `some b` when `install_dependencies` was called and returned `b`. -/
  installResult : Option Bool
  /-- Did the run return before the example loop? -/
  abortedBeforeTasks : Bool
  /-- Results recorded for the example tasks, in execution order. -/
  taskRecords : List (String × ExecutionResult)
  /-- Test-suite result; `none` when the tests directory is absent or the
  run aborted earlier. -/
  testsOutcome : Option ExecutionResult
  /-- How many times the teardown decision (cleanup) was consulted. -/
  cleanupCount : Nat
  /-- Whether `stop_qdrant` was invoked. -/
  stopInvoked : Bool
  /-- Engine state when the run ends. -/
  dockerFinal : DockerState
deriving Repr

/-- An early `return` from `main` (run_examples.py:129,133,146): no tasks,
no tests, no cleanup prompt. -/
def abortRun (startResult installResult : Option Bool) (s : DockerState) :
    DriverRun :=
  ⟨startResult, installResult, true, [], none, 0, false, s⟩

/-- Steps 4-7 of the driver (run_examples.py:149-174): the example loop, the
conditional test-suite run, then the teardown prompt gating `stop_qdrant`. -/
def tasksAndCleanup (w : World) (startResult installResult : Option Bool)
    (s : DockerState) : DriverRun :=
  let recs := runTasks w driverExamples
  let tests :=
    if w.fileExists "tests/" then some (run_tests w.testsBehavior) else none
  let doStop := promptDecision w.stopResponse
  let s2 := if doStop then stop_qdrant w.engineAvailable s else s
  ⟨startResult, installResult, false, recs, tests, 1, doStop, s2⟩

/-- The dependency phase and everything after it (run_examples.py:137-174).
When auto-management is not detected, `install_dependencies` runs; its
`FileNotFoundError` (absent `uv` binary) propagates out of `main`. -/
def mainAfterService (w : World) (startResult : Option Bool)
    (s : DockerState) : Except PyExn DriverRun :=
  if w.usingUv then .ok (tasksAndCleanup w startResult none s)
  else
    match install_dependencies w.uvBinaryPresent w.installExit with
    | .error e => .error e
    | .ok true => .ok (tasksAndCleanup w startResult (some true) s)
    | .ok false => .ok (abortRun startResult (some false) s)

/-- `main` (run_examples.py:117-174): probe, conditional start gated by the
first prompt, dependency phase, task loop, tests, teardown prompt. -/
def mainE (w : World) : Except PyExn DriverRun :=
  if w.qdrantRunning then mainAfterService w none w.docker0
  else if promptDecision w.startResponse then
    match start_qdrant w.engineAvailable w.dockerRunOk w.docker0 with
    | (s, true) => mainAfterService w (some true) s
    | (s, false) => .ok (abortRun (some false) none s)
  else .ok (abortRun none none w.docker0)

/-- Process exit status of `python run_examples.py`: 0 when `main` returns
(it has no `sys.exit` call), 1 when an exception escapes `main`. -/
def driverExit (w : World) : Nat :=
  match mainE w with
  | .ok _ => 0
  | .error _ => 1

/-! ### ResultAggregator (spec §4.5) -/

/-- Modelled from the spec: `run_examples.py` has no ResultAggregator
component (the driver only prints each task's outcome and keeps no result
sequence), so the aggregator is taken from §4.5 of the specification:
`record(result)` appends to the ordered result sequence. -/
def ResultAggregator.record (acc : List ExecutionResult)
    (r : ExecutionResult) : List ExecutionResult :=
  acc ++ [r]

/-- Is one result a full success (`Completed` with exit code 0)? -/
def resultOk (r : ExecutionResult) : Bool :=
  r.status == .completed && r.exitCode == some 0

/-- RunReport of the spec data model (§3). -/
structure RunReport where
  results : List ExecutionResult
  overallSuccess : Bool
deriving DecidableEq, Repr

/-- Modelled from the spec: `report -> RunReport` (§4.5), a projection of
the recorded sequence with `overallSuccess` the conjunction of
per-result success. -/
def ResultAggregator.report (acc : List ExecutionResult) : RunReport :=
  ⟨acc, acc.all resultOk⟩

/-- A sequence of `start_qdrant` invocations (each with its own engine
availability and launch success), applied to an initial engine state. -/
def applyStarts (s : DockerState) (calls : List (Bool × Bool)) : DockerState :=
  calls.foldl (fun st c => (start_qdrant c.1 c.2 st).1) s

/-- A representative healthy environment, used as the base of the concrete
scenarios below: service not yet running, both prompts answered "y", engine
and dependencies present, all scripts exist and succeed. -/
def baseWorld : World :=
  { qdrantRunning := false
    startResponse := "y"
    engineAvailable := true
    dockerRunOk := true
    docker0 := []
    usingUv := false
    uvBinaryPresent := true
    installExit := 0
    fileExists := fun _ => true
    procBehavior := fun _ => ⟨1, .exits 0 "" ""⟩
    testsBehavior := ⟨1, .exits 0 "" ""⟩
    stopResponse := "y" }

/-! ### Helper lemmas -/

/-- After the best-effort `docker stop` / `docker rm` pair, no container
with the driver's name remains in the state. -/
lemma filterQ_stop_rm (s : DockerState) :
    (dockerRmStopped (dockerStopAll s)).filter (fun c => c.name == qname) = [] := by
  induction s with
  | nil => rfl
  | cons c rest ih =>
    by_cases h : c.name == qname <;>
      simp [dockerStopAll, dockerRmStopped, List.filter, h] at ih ⊢ <;>
      simpa [dockerStopAll, dockerRmStopped] using ih

/-- A state with no containers of the driver's name in the sense of
`List.filter` also has `hasQ = false`. -/
lemma hasQ_eq_false_of_filter_nil (s : DockerState)
    (h : s.filter (fun c => c.name == qname) = []) : hasQ s = false := by
  rw [List.filter_eq_nil_iff] at h
  simp only [hasQ, List.any_eq_true, Bool.not_eq_true]
  by_cases hq : ∃ c ∈ s, c.name == qname
  · obtain ⟨c, hc, hcq⟩ := hq
    exact absurd hcq (by simpa using h c hc)
  · simpa using hq

/-- `liveQ` is bounded by `namedQ`: live containers with the name are among
all containers with the name. -/
lemma liveQ_le_namedQ (s : DockerState) : liveQ s ≤ namedQ s :=
  List.length_filter_le _ _

/-- If no container has the driver's name, the name filter is empty. -/
lemma filterQ_eq_nil_of_hasQ_false (s : DockerState) (h : hasQ s = false) :
    s.filter (fun c => c.name == qname) = [] := by
  simp only [hasQ] at h
  exact List.filter_eq_nil_iff.mpr
    (fun a ha => by simpa using List.any_eq_false.mp h a ha)

/-- If no container has the driver's name, no live container has it. -/
lemma liveQ_eq_zero_of_hasQ_false (s : DockerState) (h : hasQ s = false) :
    liveQ s = 0 := by
  rw [liveQ, filterQ_eq_nil_of_hasQ_false s h]
  rfl

/-- What a `start_qdrant` call with the engine present leaves under the
driver's name: exactly the fresh container on success, nothing on failure. -/
lemma start_filterQ (ok : Bool) (s : DockerState) :
    ((start_qdrant true ok s).1).filter (fun c => c.name == qname) =
      if ok then [⟨qname, true⟩] else [] := by
  have hfil := filterQ_stop_rm s
  have hq := hasQ_eq_false_of_filter_nil _ hfil
  have hmem : ∀ a ∈ dockerRmStopped (dockerStopAll s), ¬ a.name = qname := by
    intro a ha
    have hf := List.filter_eq_nil_iff.mp hfil a ha
    simpa using hf
  cases ok <;>
    simp [start_qdrant, hq, hfil, List.filter_append, qname] <;>
    simpa [qname] using hmem

/-- When the `uv` binary is present, `install_dependencies` returns a
boolean rather than raising (`CalledProcessError` is the only exception its
body can raise, and it is caught). -/
lemma install_dependencies_ok (installExit : Int) :
    install_dependencies true installExit =
      .ok (decide (installExit = 0)) := by
  by_cases h : installExit = 0 <;>
    simp [install_dependencies, tryE, h]

/-- Every run of `main` that returns ends in one of exactly two shapes:
it reached the task phase (`tasksAndCleanup`) or it returned early
(`abortRun`). -/
lemma mainE_ok_shape (w : World) (r : DriverRun) (h : mainE w = .ok r) :
    (r.abortedBeforeTasks = false ∧ r.cleanupCount = 1 ∧
      r.taskRecords = runTasks w driverExamples ∧
      r.stopInvoked = promptDecision w.stopResponse) ∨
    (r.abortedBeforeTasks = true ∧ r.cleanupCount = 0 ∧
      r.taskRecords = [] ∧ r.testsOutcome = none ∧ r.stopInvoked = false) := by
  have after : ∀ sr s, mainAfterService w sr s = .ok r →
      (r.abortedBeforeTasks = false ∧ r.cleanupCount = 1 ∧
        r.taskRecords = runTasks w driverExamples ∧
        r.stopInvoked = promptDecision w.stopResponse) ∨
      (r.abortedBeforeTasks = true ∧ r.cleanupCount = 0 ∧
        r.taskRecords = [] ∧ r.testsOutcome = none ∧ r.stopInvoked = false) := by
    intro sr s hs
    unfold mainAfterService at hs
    split at hs
    · cases hs
      exact Or.inl ⟨rfl, rfl, rfl, rfl⟩
    · split at hs
      · exact absurd hs (by simp)
      · cases hs
        exact Or.inl ⟨rfl, rfl, rfl, rfl⟩
      · cases hs
        exact Or.inr ⟨rfl, rfl, rfl, rfl, rfl⟩
  unfold mainE at h
  split at h
  · exact after _ _ h
  · split at h
    · split at h
      · exact after _ _ h
      · cases h
        exact Or.inr ⟨rfl, rfl, rfl, rfl, rfl⟩
    · cases h
      exact Or.inr ⟨rfl, rfl, rfl, rfl, rfl⟩

/-- Recording results one by one yields exactly the recorded sequence, in
order. -/
lemma foldl_record (rs : List ExecutionResult) :
    rs.foldl ResultAggregator.record [] = rs := by
  suffices hgen : ∀ acc, rs.foldl ResultAggregator.record acc = acc ++ rs by
    simpa using hgen []
  induction rs with
  | nil => intro acc; simp
  | cons r rest ih =>
    intro acc
    simp [ResultAggregator.record, ih]

/-- `resultOk` holds exactly on `Completed` results with exit code 0. -/
lemma resultOk_iff (r : ExecutionResult) :
    resultOk r = true ↔ r.status = .completed ∧ r.exitCode = some 0 := by
  simp [resultOk]

/-- The example loop is elementwise: it processes the list as a map. -/
lemma runTasks_eq_map (w : World) (ts : List (String × String)) :
    runTasks w ts = ts.map (runTaskEntry w) := by
  induction ts with
  | nil => rfl
  | cons t rest ih => simp [runTasks, ih]

/-- Closed form of `stop_qdrant`: with the engine present and some
container carrying the name, it stops and removes them; in every other
situation the swallowed error leaves the state unchanged. -/
lemma stop_qdrant_eq (ea : Bool) (s : DockerState) :
    stop_qdrant ea s =
      if ea && hasQ s then dockerRmStopped (dockerStopAll s) else s := by
  cases ea <;> by_cases h : hasQ s <;>
    simp [stop_qdrant, stop_qdrantE, tryE, h]

/-! ### The claims -/

/-- C3: for every sequence of recorded ExecutionResults,
`ResultAggregator.report().overallSuccess` is true iff every recorded
result has status `Completed` and exit code 0; a single result that is not
a full success makes it false; and the report lists the results in the
order they were recorded. -/
theorem spec_C3 (rs : List ExecutionResult) :
    (ResultAggregator.report (rs.foldl ResultAggregator.record [])).results = rs ∧
    ((ResultAggregator.report (rs.foldl ResultAggregator.record [])).overallSuccess
        = true ↔
      ∀ r ∈ rs, r.status = .completed ∧ r.exitCode = some 0) ∧
    (∀ r ∈ rs, resultOk r = false →
      (ResultAggregator.report (rs.foldl ResultAggregator.record [])).overallSuccess
        = false) := by
  rw [foldl_record]
  refine ⟨rfl, ?_, ?_⟩
  · simp [ResultAggregator.report, List.all_eq_true, resultOk_iff]
  · intro r hr hbad
    simp only [ResultAggregator.report]
    rw [Bool.eq_false_iff]
    intro hall
    have hok := List.all_eq_true.mp hall r hr
    rw [hbad] at hok
    cases hok

/-- C3 witness: a `Completed/0` result followed by a `Failed/1` one gives
`overallSuccess = false` while both stay in the report, in order. -/
theorem spec_C3_witness :
    (ResultAggregator.report
        ([(⟨.completed, some 0, "", ""⟩ : ExecutionResult),
          ⟨.failed, some 1, "", ""⟩].foldl ResultAggregator.record [])).results =
      [⟨.completed, some 0, "", ""⟩, ⟨.failed, some 1, "", ""⟩] ∧
    ((ResultAggregator.report
        ([(⟨.completed, some 0, "", ""⟩ : ExecutionResult),
          ⟨.failed, some 1, "", ""⟩].foldl ResultAggregator.record [])).overallSuccess
        = true ↔
      ∀ r ∈ [(⟨.completed, some 0, "", ""⟩ : ExecutionResult),
             ⟨.failed, some 1, "", ""⟩],
        r.status = .completed ∧ r.exitCode = some 0) ∧
    (∀ r ∈ [(⟨.completed, some 0, "", ""⟩ : ExecutionResult),
            ⟨.failed, some 1, "", ""⟩], resultOk r = false →
      (ResultAggregator.report
        ([(⟨.completed, some 0, "", ""⟩ : ExecutionResult),
          ⟨.failed, some 1, "", ""⟩].foldl ResultAggregator.record [])).overallSuccess
        = false) :=
  spec_C3 [⟨.completed, some 0, "", ""⟩, ⟨.failed, some 1, "", ""⟩]

/-- C4: `run_example` never lets an exception past its boundary (the
explicit `try/except` version always returns `ok` of the total
classification), and the resulting status is one of Completed, TimedOut,
Failed, NotFound — for the test-suite task as well. -/
theorem spec_C4 (pb : ProcBehavior) :
    run_exampleE pb = .ok (run_example pb) ∧
    ((run_example pb).status = .completed ∨ (run_example pb).status = .timedOut ∨
      (run_example pb).status = .failed ∨ (run_example pb).status = .notFound) ∧
    ((run_tests pb).status = .completed ∨ (run_tests pb).status = .timedOut ∨
      (run_tests pb).status = .failed ∨ (run_tests pb).status = .notFound) := by
  obtain ⟨d, o⟩ := pb
  refine ⟨?_, ?_, ?_⟩
  · cases o with
    | spawnFail e =>
      cases e <;> rfl
    | exits code out err =>
      by_cases h : 60 < d <;> by_cases hc : code == 0 <;>
        simp [run_exampleE, run_example, runScript, subprocessRun, tryE,
          bind, Except.bind, pure, Except.pure, h, hc]
  · cases o with
    | spawnFail e => cases e <;> simp [run_example, runScript, subprocessRun]
    | exits code out err =>
      by_cases h : 60 < d <;> by_cases hc : code == 0 <;>
        simp [run_example, runScript, subprocessRun, h, hc]
  · cases o with
    | spawnFail e => cases e <;> simp [run_tests, runScript, subprocessRun]
    | exits code out err =>
      by_cases h : 120 < d <;> by_cases hc : code == 0 <;>
        simp [run_tests, runScript, subprocessRun, h, hc]

/-- C5: the driver attempts every configured task in order (the loop is an
elementwise map, so one task's outcome never halts it); a missing script
becomes a `NotFound` record while every other task still executes; and a
non-aborted run of `main` records results for the full configured list. -/
theorem spec_C5 (w : World) (ts : List (String × String)) :
    runTasks w ts = ts.map (runTaskEntry w) ∧
    (∀ t ∈ ts, w.fileExists t.2 = false →
      runTaskEntry w t = (t.1, ⟨.notFound, none, "", ""⟩)) ∧
    (∀ r, mainE w = .ok r → r.abortedBeforeTasks = false →
      r.taskRecords = runTasks w driverExamples ∧
      r.taskRecords.length = driverExamples.length) := by
  refine ⟨runTasks_eq_map w ts, ?_, ?_⟩
  · intro t ht hmiss
    simp [runTaskEntry, hmiss]
  · intro r h hna
    rcases mainE_ok_shape w r h with ⟨_, _, hrec, _⟩ | ⟨hab, _⟩
    · refine ⟨hrec, ?_⟩
      rw [hrec, runTasks_eq_map]
      exact List.length_map _ _
    · rw [hab] at hna
      cases hna

/-- C5 witness: in a world where the second script is missing, the loop
still yields one record per task, the missing one `NotFound`. -/
theorem spec_C5_witness :
    (runTasks { baseWorld with fileExists := fun p => p != "examples/document_search.py" }
        driverExamples =
      driverExamples.map (runTaskEntry
        { baseWorld with fileExists := fun p => p != "examples/document_search.py" })) ∧
    (({ baseWorld with fileExists := fun p => p != "examples/document_search.py" }
        : World).fileExists "examples/document_search.py" = false →
      runTaskEntry { baseWorld with fileExists := fun p => p != "examples/document_search.py" }
          ("Document Search", "examples/document_search.py") =
        ("Document Search", ⟨.notFound, none, "", ""⟩)) := by
  have h := spec_C5
    { baseWorld with fileExists := fun p => p != "examples/document_search.py" }
    driverExamples
  exact ⟨h.1, fun hm => h.2.1 ("Document Search", "examples/document_search.py")
    (by decide) hm⟩

/-- C6: a task whose underlying process would run longer than the limit
yields a `TimedOut` result with no exit code (`run_example` enforces 60
seconds, `run_tests` 120, both through the same classification). -/
theorem spec_C6 (limit : Nat) (pb : ProcBehavior) (code : Int) (out err : String)
    (hout : pb.outcome = .exits code out err) (hd : limit < pb.duration) :
    (runScript limit pb).status = .timedOut ∧
    (runScript limit pb).exitCode = none ∧
    run_example pb = runScript 60 pb ∧ run_tests pb = runScript 120 pb := by
  obtain ⟨d, o⟩ := pb
  subst hout
  simp only at hd
  refine ⟨?_, ?_, rfl, rfl⟩ <;> simp [runScript, subprocessRun, hd]

/-- C6 witness: a 61-second process under the 60-second example limit. -/
theorem spec_C6_witness :
    (60 : Nat) < (⟨61, .exits 0 "" ""⟩ : ProcBehavior).duration ∧
    ((runScript 60 ⟨61, .exits 0 "" ""⟩).status = .timedOut ∧
      (runScript 60 ⟨61, .exits 0 "" ""⟩).exitCode = none ∧
      run_example ⟨61, .exits 0 "" ""⟩ = runScript 60 ⟨61, .exits 0 "" ""⟩ ∧
      run_tests ⟨61, .exits 0 "" ""⟩ = runScript 120 ⟨61, .exits 0 "" ""⟩) :=
  ⟨by decide, spec_C6 60 ⟨61, .exits 0 "" ""⟩ 0 "" "" rfl (by decide)⟩

/-- C7: with the engine present, `start_qdrant` first stops and removes
every prior container with the driver's name, so it leaves under that name
exactly the fresh container (on success) or nothing (on failure); hence
any sequence of start calls preserves "at most one container, at most one
live container" with the name, and two successful starts in a row leave
exactly one live instance. -/
theorem spec_C7 (s : DockerState) (calls : List (Bool × Bool))
    (h : namedQ s ≤ 1) :
    namedQ (applyStarts s calls) ≤ 1 ∧ liveQ (applyStarts s calls) ≤ 1 ∧
    (∀ (s2 : DockerState) (ok : Bool),
      ((start_qdrant true ok s2).1).filter (fun c => c.name == qname) =
        if ok then [⟨qname, true⟩] else []) ∧
    (∀ s3 : DockerState,
      liveQ ((start_qdrant true true ((start_qdrant true true s3).1)).1) = 1) := by
  have hnamed : ∀ (cs : List (Bool × Bool)) (s0 : DockerState),
      namedQ s0 ≤ 1 → namedQ (applyStarts s0 cs) ≤ 1 := by
    intro cs
    induction cs with
    | nil =>
      intro s0 h0
      simpa [applyStarts] using h0
    | cons c rest ih =>
      intro s0 h0
      have hstep : namedQ (start_qdrant c.1 c.2 s0).1 ≤ 1 := by
        rcases c with ⟨ea, ok⟩
        cases ea
        · simpa [start_qdrant] using h0
        · have hfq := start_filterQ ok s0
          cases ok <;> simp [namedQ, hfq]
      simpa [applyStarts, List.foldl_cons] using ih _ hstep
  have h1 := hnamed calls s h
  refine ⟨h1, Nat.le_trans (liveQ_le_namedQ _) h1,
    fun s2 ok => start_filterQ ok s2, ?_⟩
  intro s3
  rw [liveQ, start_filterQ true]
  rfl

/-- C7 witness: two successive successful starts from an empty engine
state leave at most one (indeed, exactly one) live instance. -/
theorem spec_C7_witness :
    namedQ [] ≤ 1 ∧
    namedQ (applyStarts [] [(true, true), (true, true)]) ≤ 1 ∧
    liveQ (applyStarts [] [(true, true), (true, true)]) ≤ 1 :=
  ⟨by decide,
    (spec_C7 [] [(true, true), (true, true)] (by decide)).1,
    (spec_C7 [] [(true, true), (true, true)] (by decide)).2.1⟩

/-- C8: `stop_qdrant` never propagates an error (its `try/except` body
always resolves to `ok`), invoking it twice is the same as invoking it
once, and with the engine present it leaves no container — in particular
no live one — under the driver's name. -/
theorem spec_C8 (ea : Bool) (s : DockerState) :
    stop_qdrantE ea s = .ok (stop_qdrant ea s) ∧
    stop_qdrant ea (stop_qdrant ea s) = stop_qdrant ea s ∧
    (ea = true → hasQ (stop_qdrant ea s) = false ∧
      liveQ (stop_qdrant ea s) = 0) := by
  have hq0 := hasQ_eq_false_of_filter_nil _ (filterQ_stop_rm s)
  refine ⟨?_, ?_, ?_⟩
  · cases ea <;> by_cases h : hasQ s <;>
      simp [stop_qdrant, stop_qdrantE, tryE, h]
  · rw [stop_qdrant_eq ea s]
    cases ea
    · simp [stop_qdrant_eq]
    · by_cases h : hasQ s
      · simp [h, stop_qdrant_eq, hq0]
      · simp [h, stop_qdrant_eq]
  · intro hea
    subst hea
    rw [stop_qdrant_eq]
    by_cases h : hasQ s
    · rw [if_pos (by simp [h])]
      exact ⟨hq0, liveQ_eq_zero_of_hasQ_false _ hq0⟩
    · rw [if_neg (by simp [h])]
      have hf : hasQ s = false := by simpa using h
      exact ⟨hf, liveQ_eq_zero_of_hasQ_false _ hf⟩

/-- C8 witness: stopping twice from a state holding one live instance. -/
theorem spec_C8_witness :
    stop_qdrantE true [⟨qname, true⟩] =
      .ok (stop_qdrant true [⟨qname, true⟩]) ∧
    stop_qdrant true (stop_qdrant true [⟨qname, true⟩]) =
      stop_qdrant true [⟨qname, true⟩] ∧
    (hasQ (stop_qdrant true [⟨qname, true⟩]) = false ∧
      liveQ (stop_qdrant true [⟨qname, true⟩]) = 0) :=
  ⟨(spec_C8 true [⟨qname, true⟩]).1, (spec_C8 true [⟨qname, true⟩]).2.1,
    (spec_C8 true [⟨qname, true⟩]).2.2 rfl⟩

/-- C9: when the probe is unreachable, the start decision is yes, and
`start_qdrant` fails — which it does whenever the engine is absent
(EngineNotFound) or the launch command fails (StartFailed) — `main`
aborts with no task run, no test run, and no cleanup. -/
theorem spec_C9 (w : World) (s : DockerState)
    (h1 : w.qdrantRunning = false)
    (h2 : promptDecision w.startResponse = true)
    (h3 : start_qdrant w.engineAvailable w.dockerRunOk w.docker0 = (s, false)) :
    mainE w = .ok (abortRun (some false) none s) ∧
    (abortRun (some false) none s).taskRecords = [] ∧
    (abortRun (some false) none s).testsOutcome = none ∧
    (abortRun (some false) none s).abortedBeforeTasks = true ∧
    (∀ (ea ok : Bool) (s0 : DockerState),
      ea = false ∨ ok = false → (start_qdrant ea ok s0).2 = false) := by
  refine ⟨?_, rfl, rfl, rfl, ?_⟩
  · simp [mainE, h1, h2, h3]
  · intro ea ok s0 hcase
    rcases hcase with he | ho
    · subst he
      simp [start_qdrant]
    · subst ho
      cases ea <;> simp [start_qdrant]

/-- C9 witness: engine binary absent, probe unreachable, user answers "y":
the driver aborts with no tasks. -/
theorem spec_C9_witness :
    ({ baseWorld with engineAvailable := false } : World).qdrantRunning = false ∧
    promptDecision ({ baseWorld with engineAvailable := false } : World).startResponse
      = true ∧
    mainE { baseWorld with engineAvailable := false } =
      .ok (abortRun (some false) none []) :=
  ⟨rfl, by decide,
    (spec_C9 { baseWorld with engineAvailable := false } [] rfl (by decide) rfl).1⟩

/-- C10: both prompt gates use the same decision — true exactly when the
reply, lowercased, is the single letter "y"; "Y" is accepted, while "yes"
and the empty reply are declinations; the teardown gate of a completed run
is that decision applied to the second reply. -/
theorem spec_C10 (s : String) (w : World) (r : DriverRun) :
    (promptDecision s = true ↔ pyLower s = "y") ∧
    promptDecision "y" = true ∧ promptDecision "Y" = true ∧
    promptDecision "yes" = false ∧ promptDecision "" = false ∧
    (mainE w = .ok r → r.abortedBeforeTasks = false →
      r.stopInvoked = promptDecision w.stopResponse) := by
  refine ⟨?_, by decide, by decide, by decide, by decide, ?_⟩
  · simp [promptDecision]
  · intro h hna
    rcases mainE_ok_shape w r h with ⟨_, _, _, hstop⟩ | ⟨hab, _⟩
    · exact hstop
    · rw [hab] at hna
      cases hna

/-- C10 witness: the completed base run's teardown gate equals the
decision applied to its second reply. -/
theorem spec_C10_witness :
    (tasksAndCleanup baseWorld (some true) (some true)
        [⟨qname, true⟩]).stopInvoked =
      promptDecision baseWorld.stopResponse :=
  (spec_C10 "Y" baseWorld
      (tasksAndCleanup baseWorld (some true) (some true) [⟨qname, true⟩])).2.2.2.2.2
    rfl rfl

/-- C1 counterexample: probe unreachable, start accepted and successful (a
handle exists), dependency installation fails — `main` returns without
ever consulting the teardown decision or calling `stop_qdrant`, so cleanup
runs zero times, not once. -/
theorem spec_C1_counterexample :
    mainE { baseWorld with installExit := 1 } =
      .ok (abortRun (some true) (some false) [⟨qname, true⟩]) ∧
    (abortRun (some true) (some false)
        [(⟨qname, true⟩ : Container)]).startResult = some true ∧
    (abortRun (some true) (some false)
        [(⟨qname, true⟩ : Container)]).cleanupCount = 0 ∧
    (abortRun (some true) (some false)
        [(⟨qname, true⟩ : Container)]).stopInvoked = false :=
  ⟨rfl, rfl, rfl, rfl⟩

/-- C1 (amended): cleanup (the teardown prompt gating `stop_qdrant`) is
consulted exactly once on every run of `main` that reaches the task phase,
and zero times on every early abort — including the abort after a failed
dependency installation, where a service handle had been obtained. -/
theorem spec_C1 (w : World) (r : DriverRun) (h : mainE w = .ok r) :
    r.cleanupCount = if r.abortedBeforeTasks then 0 else 1 := by
  rcases mainE_ok_shape w r h with ⟨hab, hc, _, _⟩ | ⟨hab, hc, _⟩ <;>
    simp [hab, hc]

/-- C1 witness: the completed base run consults cleanup exactly once. -/
theorem spec_C1_witness :
    (tasksAndCleanup baseWorld (some true) (some true)
        [⟨qname, true⟩]).cleanupCount =
      if (tasksAndCleanup baseWorld (some true) (some true)
        [(⟨qname, true⟩ : Container)]).abortedBeforeTasks then 0 else 1 :=
  spec_C1 baseWorld
    (tasksAndCleanup baseWorld (some true) (some true) [⟨qname, true⟩]) rfl

/-- C2 counterexample: probe unreachable and start declined — the driver
aborts with an empty record, yet `main` returns normally and the process
exit status is 0, not non-zero as claimed. -/
theorem spec_C2_counterexample :
    ({ baseWorld with startResponse := "n" } : World).qdrantRunning = false ∧
    promptDecision "n" = false ∧
    mainE { baseWorld with startResponse := "n" } = .ok (abortRun none none []) ∧
    (abortRun none none ([] : DockerState)).taskRecords = [] ∧
    driverExit { baseWorld with startResponse := "n" } = 0 :=
  ⟨rfl, by decide, rfl, rfl, rfl⟩

/-- C2 (amended): whenever `install_dependencies` cannot crash (dependency
auto-management detected, or its binary present), the driver's process
exit status is 0 — independent of how tasks fared and of
`RunReport.overallSuccess`; in the unreachable-and-declined scenario the
driver aborts with an empty record and still exits 0. -/
theorem spec_C2 (w : World)
    (huv : (w.usingUv || w.uvBinaryPresent) = true) :
    driverExit w = 0 ∧
    (w.qdrantRunning = false → promptDecision w.startResponse = false →
      mainE w = .ok (abortRun none none w.docker0) ∧
      (abortRun none none w.docker0).taskRecords = []) := by
  have hafter : ∀ sr s, ∃ r, mainAfterService w sr s = .ok r := by
    intro sr s
    unfold mainAfterService
    by_cases hu : w.usingUv = true
    · rw [if_pos hu]
      exact ⟨_, rfl⟩
    · have hp : w.uvBinaryPresent = true := by
        cases hb : w.usingUv
        · cases hb2 : w.uvBinaryPresent
          · rw [hb, hb2] at huv
            cases huv
          · rfl
        · exact absurd hb hu
      rw [if_neg hu, hp, install_dependencies_ok]
      by_cases he : w.installExit = 0
      · rw [decide_eq_true he]
        exact ⟨_, rfl⟩
      · rw [decide_eq_false he]
        exact ⟨_, rfl⟩
  have hok : ∃ r, mainE w = .ok r := by
    unfold mainE
    by_cases hq : w.qdrantRunning = true
    · rw [if_pos hq]
      exact hafter none w.docker0
    · rw [if_neg hq]
      by_cases hs : promptDecision w.startResponse = true
      · rw [if_pos hs]
        rcases hstart : start_qdrant w.engineAvailable w.dockerRunOk w.docker0
          with ⟨s, ok⟩
        cases ok
        · exact ⟨_, rfl⟩
        · exact hafter (some true) s
      · rw [if_neg hs]
        exact ⟨_, rfl⟩
  obtain ⟨r, hr⟩ := hok
  refine ⟨by simp [driverExit, hr], ?_⟩
  intro h1 h2
  exact ⟨by simp [mainE, h1, h2], rfl⟩

/-- C2 witness: the declined-start scenario, concretely. -/
theorem spec_C2_witness :
    ((({ baseWorld with startResponse := "n" } : World).usingUv ||
        ({ baseWorld with startResponse := "n" } : World).uvBinaryPresent) = true) ∧
    driverExit { baseWorld with startResponse := "n" } = 0 :=
  ⟨by decide, (spec_C2 { baseWorld with startResponse := "n" } (by decide)).1⟩
